import Mathlib

/-!
Verification of the FinSage quantitative simulation and risk engine
against its specification.

The backend engine itself (a Python service reached through
`/api/risk/...` and `/api/simulations/...`) is not part of the checked-in
sources; only its mathematical documentation, the frontend callers and the
HTTP client are.  The engine is therefore modelled here from the
specification (and the repository's mathematical foundation document),
with the real-analytic primitives it relies on — the standard normal CDF
Φ, the pdf φ and the square root — abstracted as an injected record of
rational-valued functions, exactly as the specification's design notes
require an injectable random source.  All monetary quantities are
modelled as rationals.
-/

namespace FinSage

/-- Modelled from the spec: the real-analytic primitives of the missing
backend engine — standard normal CDF `Phi`, pdf `phi`, square root
`sqrtQ` (the spec's erf-based Φ and `sqrt` calls), and the `eps` guard
used by the expected-shortfall clamp.  They are injected so that the
structural properties of the engine can be stated for every realisation
of these functions. -/
structure NormalPrimitives where
  Phi : ℚ → ℚ
  phi : ℚ → ℚ
  sqrtQ : ℚ → ℚ
  eps : ℚ

/-- Modelled from the spec: per-category expense statistics
(`CategoryStats` of §3, produced by the missing Distribution
Estimator). -/
structure CategoryStats where
  category : String
  mean : ℚ
  variance : ℚ
  std : ℚ
deriving DecidableEq

/-- Modelled from the spec: the single aggregate income distribution of
§4.1 (income is not split by category). -/
structure IncomeStats where
  mean : ℚ
  variance : ℚ
deriving DecidableEq

/-- Modelled from the spec: `CashFlowDistribution` of §3. -/
structure CashFlowDistribution where
  mean_income : ℚ
  var_income : ℚ
  mean_expense_total : ℚ
  var_expense_total : ℚ
  mean_net : ℚ
  var_net : ℚ
  std_net : ℚ
deriving DecidableEq

/-- Modelled from the spec: total expense mean `Σ μ_k` over the category
statistics. -/
def totalExpenseMean (cs : List CategoryStats) : ℚ :=
  (cs.map CategoryStats.mean).sum

/-- Modelled from the spec: total expense variance `Σ σ_k²` (additivity
under the independence assumption, §3 and the math document §3). -/
def totalExpenseVar (cs : List CategoryStats) : ℚ :=
  (cs.map CategoryStats.variance).sum

/-- Modelled from the spec: aggregation of the per-category and income
statistics into the net cash-flow distribution (§3 invariants and the
math document §4): `mean_net = mean_income − mean_expense_total`,
`var_net = var_income + var_expense_total`, `std_net = sqrt var_net`. -/
def mkCashFlowDistribution (sqrtQ : ℚ → ℚ) (cs : List CategoryStats)
    (inc : IncomeStats) : CashFlowDistribution :=
  { mean_income := inc.mean
    var_income := inc.variance
    mean_expense_total := totalExpenseMean cs
    var_expense_total := totalExpenseVar cs
    mean_net := inc.mean - totalExpenseMean cs
    var_net := inc.variance + totalExpenseVar cs
    std_net := sqrtQ (inc.variance + totalExpenseVar cs) }

/-- Modelled from the spec: failure probability `Φ(−mean_net/std_net)`
(§4.2 and math document §5); if `std_net = 0` the degenerate normal gives
0 for `mean_net ≥ 0` and 1 otherwise, avoiding division by zero. -/
def failureProbability (Phi : ℚ → ℚ) (mean_net std_net : ℚ) : ℚ :=
  if 0 < std_net then Phi (-mean_net / std_net)
  else if 0 ≤ mean_net then 0 else 1

/-- Modelled from the spec: expected shortfall
`ES = mean_net − std_net · φ(z)/Φ(z)` for `z = −mean_net/std_net` when
`Φ(z) > ε`, else `ES = mean_net` (§4.2, math document §6). -/
def expectedShortfall (P : NormalPrimitives) (mean_net std_net : ℚ) : ℚ :=
  let z := -mean_net / std_net
  if P.eps < P.Phi z then mean_net - std_net * (P.phi z / P.Phi z)
  else mean_net

/-- Modelled from the spec: runway `mean_net/std_net * 30` days when
`std_net > 0` and `mean_net < 0`, clamped to 0 when `mean_net ≥ 0`; a
non-finite ratio (zero `std_net` with negative mean) is reported as no
computable runway (`none`), per §4.2. -/
def runwayDays (mean_net std_net : ℚ) : Option ℚ :=
  if 0 ≤ mean_net then some 0
  else if 0 < std_net then some (mean_net / std_net * 30)
  else none

/-- Modelled from the spec: one row of the risk attribution (§3's
`risk_drivers` entries). -/
structure RiskDriver where
  category : String
  contribution_pct : ℚ
  variance : ℚ
  mean : ℚ
  cv : Option ℚ
deriving DecidableEq

/-- Modelled from the spec: the ordering on risk drivers — descending by
`contribution_pct`, ties broken by category name ascending (§4.2). -/
def driverBefore (a b : RiskDriver) : Prop :=
  b.contribution_pct < a.contribution_pct ∨
    (a.contribution_pct = b.contribution_pct ∧ a.category ≤ b.category)

instance : DecidableRel driverBefore := fun a b => by
  unfold driverBefore; infer_instance

/-- Modelled from the spec: a single attribution row —
`contribution_pct = 100 · var_k / var_net`, and CV `std_k/mean_k`
represented as a sentinel (`none`) when the mean is zero (§4.2). -/
def mkRiskDriver (var_net : ℚ) (name : String) (mean variance std : ℚ) :
    RiskDriver :=
  { category := name
    contribution_pct := 100 * variance / var_net
    variance := variance
    mean := mean
    cv := if mean = 0 then none else some (std / mean) }

/-- Modelled from the spec: the risk-driver sequence — one bucket per
expense category plus income as its own bucket, sorted by
`driverBefore` (§4.2). -/
def riskDrivers (P : NormalPrimitives) (cs : List CategoryStats)
    (inc : IncomeStats) : List RiskDriver :=
  let var_net := (mkCashFlowDistribution P.sqrtQ cs inc).var_net
  let items :=
    cs.map (fun c => mkRiskDriver var_net c.category c.mean c.variance c.std)
      ++ [mkRiskDriver var_net "income" inc.mean inc.variance
            (P.sqrtQ inc.variance)]
  items.insertionSort driverBefore

/-- Modelled from the spec: `GoalSnapshot` of §3.  The months between now
and the target date are precomputed by the boundary layer; a goal with no
target date carries `none`. -/
structure GoalSnapshot where
  id : ℕ
  target_amount : ℚ
  current_amount : ℚ
  target_months : Option ℚ
deriving DecidableEq

/-- Modelled from the spec: goal risk entry of §3's `RiskReport`. -/
structure GoalRisk where
  goal_id : ℕ
  failure_probability : ℚ
  remaining_amount : ℚ
  months_to_goal : ℤ
  expected_shortfall : ℚ
deriving DecidableEq

/-- Modelled from the spec: the per-goal outcome — goals with no target
date are reported as not time-bound, never given a numeric risk. -/
inductive GoalRiskResult where
  | timeBound (r : GoalRisk)
  | notTimeBound (goal_id : ℕ)
deriving DecidableEq

/-- Modelled from the spec: the goal horizon `T` — months to the target
date, rounded up and at least 1 (§4.2 goal-conditioned risk). -/
def goalMonths (m : ℚ) : ℤ := max 1 ⌈m⌉

/-- Modelled from the spec: goal-conditioned risk (§4.2 and math document
§9): for a time-bound goal, `T = goalMonths`, `G = remaining_amount`,
failure probability `Φ((G − T·mean_net)/(√T·std_net))`, expected
shortfall scaled by `√T`; a goal without a target date is skipped. -/
def goalRiskFor (P : NormalPrimitives) (d : CashFlowDistribution)
    (g : GoalSnapshot) : GoalRiskResult :=
  match g.target_months with
  | none => .notTimeBound g.id
  | some m =>
    let T : ℤ := goalMonths m
    let G : ℚ := max (g.target_amount - g.current_amount) 0
    .timeBound
      { goal_id := g.id
        failure_probability :=
          P.Phi ((G - T * d.mean_net) / (P.sqrtQ T * d.std_net))
        remaining_amount := G
        months_to_goal := T
        expected_shortfall :=
          P.sqrtQ T * expectedShortfall P d.mean_net d.std_net }

/-- Modelled from the spec: `RiskReport` of §3. -/
structure RiskReport where
  failure_probability : ℚ
  expected_shortfall : ℚ
  mean_cashflow : ℚ
  runway_days : Option ℚ
  risk_drivers : List RiskDriver
  goal_risks : List GoalRiskResult
deriving DecidableEq

/-- Modelled from the spec: the public operation
`analyzeRisk(categoryStats, incomeStats, goals) → RiskReport` of §4.2. -/
def analyzeRisk (P : NormalPrimitives) (cs : List CategoryStats)
    (inc : IncomeStats) (goals : List GoalSnapshot) : RiskReport :=
  let d := mkCashFlowDistribution P.sqrtQ cs inc
  { failure_probability := failureProbability P.Phi d.mean_net d.std_net
    expected_shortfall := expectedShortfall P d.mean_net d.std_net
    mean_cashflow := d.mean_net
    runway_days := runwayDays d.mean_net d.std_net
    risk_drivers := riskDrivers P cs inc
    goal_risks := goals.map (goalRiskFor P d) }

/-- Modelled from the spec: application of a multiplicative shock to one
bucket's mean — the shock map keys category names (with the sentinel
`"income"`); unspecified buckets pass through unshocked (§4.3). -/
def applyShock (shockMap : List (String × ℚ)) (name : String) (mean : ℚ) : ℚ :=
  match shockMap.lookup name with
  | some mult => mult * mean
  | none => mean

/-- Modelled from the spec: the shocked per-category statistics (§4.3,
shocks applied to means). -/
def shockCategories (shockMap : List (String × ℚ)) (cs : List CategoryStats) :
    List CategoryStats :=
  cs.map (fun c => { c with mean := applyShock shockMap c.category c.mean })

/-- Modelled from the spec: the shocked income statistics, keyed by the
special `"income"` bucket (§4.3). -/
def shockIncome (shockMap : List (String × ℚ)) (inc : IncomeStats) :
    IncomeStats :=
  { inc with mean := applyShock shockMap "income" inc.mean }

/-- Modelled from the spec: the element-wise numeric difference of the
scalar fields of two risk reports (§4.3's delta; the optional runway is
compared through its numeric value, 0 standing for no runway concern). -/
structure RiskDelta where
  failure_probability : ℚ
  expected_shortfall : ℚ
  mean_cashflow : ℚ
  runway_days : ℚ
deriving DecidableEq

/-- Modelled from the spec: shocked-minus-base scalar difference. -/
def mkRiskDelta (shocked base : RiskReport) : RiskDelta :=
  { failure_probability := shocked.failure_probability - base.failure_probability
    expected_shortfall := shocked.expected_shortfall - base.expected_shortfall
    mean_cashflow := shocked.mean_cashflow - base.mean_cashflow
    runway_days := shocked.runway_days.getD 0 - base.runway_days.getD 0 }

/-- Modelled from the spec: result of a stress test (§4.3). -/
structure StressTestResult where
  base : RiskReport
  shocked : RiskReport
  delta : RiskDelta
deriving DecidableEq

/-- Modelled from the spec: `stressTest(categoryStats, incomeStats,
shockMap)` of §4.3 — validates that every multiplier is positive
(multiplier ≤ 0 is rejected as invalid input), recomputes the risk model
on base and shocked statistics, and returns both plus the delta. -/
def stressTest (P : NormalPrimitives) (cs : List CategoryStats)
    (inc : IncomeStats) (shockMap : List (String × ℚ)) :
    Except String StressTestResult :=
  if shockMap.all (fun pr => decide (0 < pr.2)) then
    let base := analyzeRisk P cs inc []
    let shocked :=
      analyzeRisk P (shockCategories shockMap cs) (shockIncome shockMap inc) []
    .ok { base := base, shocked := shocked, delta := mkRiskDelta shocked base }
  else
    .error "InvalidParameterError: shock multiplier must be positive"

/-- Modelled from the spec: `MonteCarloParams` of §3 (years as a whole
number of years; the annualized return and volatility are scaled to
months inside the sampler, which is injected). -/
structure MonteCarloParams where
  initial_investment : ℚ
  monthly_contribution : ℚ
  years : ℕ
  expected_return : ℚ
  volatility : ℚ
  path_count : ℕ
deriving DecidableEq

/-- Modelled from the spec: `MonteCarloResult` of §3. -/
structure MonteCarloResult where
  mean : ℚ
  median : ℚ
  p5 : ℚ
  p25 : ℚ
  p75 : ℚ
  p95 : ℚ
  success_probability : ℚ
deriving DecidableEq

/-- Modelled from the spec: one month of the compounding contribution
process, `balance = balance*(1+r) + monthly_contribution` (§4.4). -/
def stepBalance (monthly balance r : ℚ) : ℚ := balance * (1 + r) + monthly

/-- Modelled from the spec: the terminal balance of one path — `years*12`
monthly steps starting from `initial_investment`, with the month's return
sample supplied by the injected source (§4.4). -/
def terminalBalance (p : MonteCarloParams) (returns : ℕ → ℚ) : ℚ :=
  (List.range (p.years * 12)).foldl
    (fun b t => stepBalance p.monthly_contribution b (returns t))
    p.initial_investment

/-- Modelled from the spec: total contributed principal — initial plus
the sum of all monthly contributions (§4.4's success bar). -/
def totalPrincipal (p : MonteCarloParams) : ℚ :=
  p.initial_investment + p.monthly_contribution * ((p.years * 12 : ℕ) : ℚ)

/-- Modelled from the spec: arithmetic mean of the empirical
terminal-balance distribution. -/
def listMean (xs : List ℚ) : ℚ := xs.sum / (xs.length : ℚ)

/-- Modelled from the spec: linear-interpolated percentile (not
nearest-rank) of §4.4: sort ascending, take position `q/100·(n−1)`, and
interpolate between the two neighbouring order statistics. -/
def percentileLinear (q : ℚ) (xs : List ℚ) : ℚ :=
  let ys := xs.insertionSort (· ≤ ·)
  if ys.length = 0 then 0
  else
    let pos : ℚ := q / 100 * ((ys.length : ℚ) - 1)
    let k : ℕ := ⌊pos⌋.toNat
    let a := ys.getD k 0
    let b := ys.getD (k + 1) a
    a + (pos - (k : ℚ)) * (b - a)

/-- Modelled from the spec: `simulate(params) → MonteCarloResult` of
§4.4, over an injected per-path, per-month return source; the success bar
is a terminal balance of at least twice the total contributed
principal. -/
def simulate (p : MonteCarloParams) (sample : ℕ → ℕ → ℚ) : MonteCarloResult :=
  let terminals :=
    (List.range p.path_count).map (fun i => terminalBalance p (sample i))
  { mean := listMean terminals
    median := percentileLinear 50 terminals
    p5 := percentileLinear 5 terminals
    p25 := percentileLinear 25 terminals
    p75 := percentileLinear 75 terminals
    p95 := percentileLinear 95 terminals
    success_probability :=
      (((terminals.filter (fun b => decide (2 * totalPrincipal p ≤ b))).length : ℚ) /
        (p.path_count : ℚ)) }

/-- Modelled from the spec: time to goal — either a whole number of
months or unreachable (§4.5; never a divide-by-zero fault). -/
inductive TimeToGoal where
  | reachable (months : ℤ)
  | unreachable
deriving DecidableEq

/-- Modelled from the spec: `ceil(remaining_amount / monthly_contribution)`
when the contribution is positive, else unreachable (§4.5). -/
def monthsToGoal (remaining monthly : ℚ) : TimeToGoal :=
  if 0 < monthly then .reachable ⌈remaining / monthly⌉ else .unreachable

/-- Modelled from the spec: `months_saved = baseline − scenario`, clamped
at 0 if the scenario is worse (§4.5). -/
def monthsSaved (baseline_months scenario_months : ℤ) : ℤ :=
  max (baseline_months - scenario_months) 0

/-- Modelled from the spec: one row of the goal-scenario output (§4.5). -/
structure GoalScenarioRow where
  monthly_contribution : ℚ
  savings_from_reductions : ℚ
  months_to_goal : TimeToGoal
  months_saved : ℤ
deriving DecidableEq

/-- Modelled from the spec: savings from the requested reductions,
`Σ_category historical_monthly_spend[c] * reduction_pct[c]/100` (§4.5). -/
def savingsFromReductions (reductions : List (String × ℚ))
    (historicalSpend : String → ℚ) : ℚ :=
  (reductions.map (fun pr => historicalSpend pr.1 * pr.2 / 100)).sum

/-- Modelled from the spec: saved months between a baseline and a
scenario outcome — defined only when both are reachable, else 0. -/
def savedBetween : TimeToGoal → TimeToGoal → ℤ
  | .reachable b, .reachable s => monthsSaved b s
  | _, _ => 0

/-- Modelled from the spec: `simulateGoalScenario` of §4.5 — a baseline
row (no reductions) and a scenario row with the reduction savings added
to the monthly surplus; the scenario's saved months are computed only
when both rows are reachable. -/
def simulateGoalScenario (remaining surplus : ℚ)
    (reductions : List (String × ℚ)) (historicalSpend : String → ℚ) :
    List GoalScenarioRow :=
  let baseline := monthsToGoal remaining surplus
  let savings := savingsFromReductions reductions historicalSpend
  let contribution := surplus + savings
  let scen := monthsToGoal remaining contribution
  [ { monthly_contribution := surplus
      savings_from_reductions := 0
      months_to_goal := baseline
      months_saved := 0 },
    { monthly_contribution := contribution
      savings_from_reductions := savings
      months_to_goal := scen
      months_saved := savedBetween baseline scen } ]

/-- The wire parameters of the opportunity-cost endpoint, as built by the
frontend HTTP client (src/frontend services/api). -/
structure OpportunityCostRequest where
  spending_amount : ℚ
  time_horizon_years : ℚ
  expected_return : ℚ
deriving DecidableEq

/-- The frontend client function `calculateOpportunityCost` (src/frontend
services/api): JS optional parameters `timeHorizonYears = 1` and
`expectedReturn = 0.07` are modelled as `Option` arguments, `none`
standing for an omitted argument. -/
def calculateOpportunityCost (spendingAmount : ℚ)
    (timeHorizonYears expectedReturn : Option ℚ) : OpportunityCostRequest :=
  { spending_amount := spendingAmount
    time_horizon_years := timeHorizonYears.getD 1
    expected_return := expectedReturn.getD (7 / 100) }

/-! ### Concrete inputs used by the witnesses -/

/-- A square-root stub for concrete witnesses: correct on the perfect
squares the scenarios exercise, identity elsewhere. -/
def stubSqrt (q : ℚ) : ℚ :=
  if q = 40000 then 200
  else if q = 22500 then 150
  else if q = 10000 then 100
  else q

/-- Concrete primitives for witnesses: a toy affine CDF, a constant pdf,
`stubSqrt` and a small ε. -/
def stubPrimitives : NormalPrimitives :=
  { Phi := fun z => 1 / 2 + z / 10
    phi := fun _ => 2 / 5
    sqrtQ := stubSqrt
    eps := 1 / 1000000 }

/-- Witness categories: one expense category with variance 30000. -/
def wCats : List CategoryStats :=
  [{ category := "A", mean := 1000, variance := 30000, std := 100 }]

/-- Witness income: mean 1500, variance 10000 (net mean 500, net
variance 40000, net std 200 under `stubSqrt`). -/
def wIncome : IncomeStats := { mean := 1500, variance := 10000 }

/-- Witness categories for risk attribution: variances 100 and 300. -/
def w3Cats : List CategoryStats :=
  [{ category := "A", mean := 50, variance := 100, std := 10 },
   { category := "B", mean := 80, variance := 300, std := 17 }]

/-- Witness income for risk attribution: variance 100 (net variance
500). -/
def w3Inc : IncomeStats := { mean := 1000, variance := 100 }

/-- Witness income for goal risk: mean 500, variance 22500 (net std 150
under `stubSqrt` with no expense categories). -/
def w4Inc : IncomeStats := { mean := 500, variance := 22500 }

/-- Witness goal: 6000 remaining, 12 months to the target date. -/
def wGoal : GoalSnapshot :=
  { id := 1, target_amount := 8000, current_amount := 2000,
    target_months := some 12 }

/-- Witness categories for the runway counterexample: expense mean 100,
no variance. -/
def c6Cats : List CategoryStats :=
  [{ category := "A", mean := 100, variance := 0, std := 0 }]

/-- Witness income for the runway counterexample: mean 0, variance 10000
(net mean −100, net std 100 under `stubSqrt`). -/
def c6Inc : IncomeStats := { mean := 0, variance := 10000 }

/-- Witness Monte Carlo parameters: 1 year, zero return and volatility,
two paths. -/
def w7Params : MonteCarloParams :=
  { initial_investment := 1000, monthly_contribution := 0, years := 1,
    expected_return := 0, volatility := 0, path_count := 2 }

/-- Witness return source: all samples zero. -/
def w7Sample : ℕ → ℕ → ℚ := fun _ _ => 0

/-- Witness historical spend: 400 per month in every category. -/
def w9Spend : String → ℚ := fun _ => 400

/-! ### Helper lemmas -/

theorem sum_map_hundred_div (V : ℚ) (l : List ℚ) :
    (l.map (fun x => 100 * x / V)).sum = 100 * l.sum / V := by
  induction l with
  | nil => simp
  | cons x xs ih =>
    simp only [List.map_cons, List.sum_cons, ih]
    ring

theorem sum_of_all_eq {l : List ℚ} {c : ℚ} (h : ∀ x ∈ l, x = c) :
    l.sum = (l.length : ℚ) * c := by
  induction l with
  | nil => simp
  | cons x xs ih =>
    have hx : x = c := h x (by simp)
    have ihh := ih (fun y hy => h y (by simp [hy]))
    simp only [List.sum_cons, List.length_cons, hx, ihh]
    push_cast
    ring

theorem listMean_of_all_eq {l : List ℚ} {c : ℚ} (h : ∀ x ∈ l, x = c)
    (hne : l ≠ []) : listMean l = c := by
  have hlen : (l.length : ℚ) ≠ 0 := by
    exact_mod_cast Nat.pos_iff_ne_zero.mp (List.length_pos.mpr hne)
  rw [listMean, sum_of_all_eq h]
  field_simp

/-! ### C1 and C2 -/

/-- C1: for every input whose net distribution has `std_net > 0`,
`analyzeRisk` reports failure probability `Φ(−mean_net/std_net)`; with
`std_net = 0` it reports 0 when `mean_net ≥ 0` and 1 when
`mean_net < 0`. -/
theorem analyzeRisk_failure_probability (P : NormalPrimitives)
    (cs : List CategoryStats) (inc : IncomeStats)
    (goals : List GoalSnapshot) :
    (0 < (mkCashFlowDistribution P.sqrtQ cs inc).std_net →
      (analyzeRisk P cs inc goals).failure_probability =
        P.Phi (-(mkCashFlowDistribution P.sqrtQ cs inc).mean_net /
          (mkCashFlowDistribution P.sqrtQ cs inc).std_net)) ∧
    ((mkCashFlowDistribution P.sqrtQ cs inc).std_net = 0 →
      0 ≤ (mkCashFlowDistribution P.sqrtQ cs inc).mean_net →
      (analyzeRisk P cs inc goals).failure_probability = 0) ∧
    ((mkCashFlowDistribution P.sqrtQ cs inc).std_net = 0 →
      (mkCashFlowDistribution P.sqrtQ cs inc).mean_net < 0 →
      (analyzeRisk P cs inc goals).failure_probability = 1) := by
  refine ⟨fun h => ?_, fun h0 hm => ?_, fun h0 hm => ?_⟩
  · simp [analyzeRisk, failureProbability, h]
  · simp [analyzeRisk, failureProbability, h0, hm, lt_irrefl]
  · simp [analyzeRisk, failureProbability, h0, lt_irrefl, not_le.mpr hm]

/-- Witness for C1: the spec scenario `mean_net = 500`, `std_net = 200`
evaluated with the stub primitives. -/
theorem analyzeRisk_failure_probability_witness :
    (mkCashFlowDistribution stubPrimitives.sqrtQ wCats wIncome).mean_net = 500 ∧
    (mkCashFlowDistribution stubPrimitives.sqrtQ wCats wIncome).std_net = 200 ∧
    0 < (mkCashFlowDistribution stubPrimitives.sqrtQ wCats wIncome).std_net ∧
    (analyzeRisk stubPrimitives wCats wIncome []).failure_probability =
      stubPrimitives.Phi
        (-(mkCashFlowDistribution stubPrimitives.sqrtQ wCats wIncome).mean_net /
          (mkCashFlowDistribution stubPrimitives.sqrtQ wCats wIncome).std_net) := by
  have hstd : (mkCashFlowDistribution stubPrimitives.sqrtQ wCats wIncome).std_net = 200 := by
    norm_num [mkCashFlowDistribution, totalExpenseVar, wCats, wIncome,
      stubPrimitives, stubSqrt]
  refine ⟨?_, hstd, by rw [hstd]; norm_num, ?_⟩
  · norm_num [mkCashFlowDistribution, totalExpenseMean, wCats, wIncome]
  · exact (analyzeRisk_failure_probability stubPrimitives wCats wIncome []).1
      (by rw [hstd]; norm_num)

/-- C2: the cash-flow distribution built from category and income
statistics satisfies the §3 invariants: the total expense variance is
the sum of the per-category variances, `mean_net` is income mean minus
total expense mean, and `var_net` is income variance plus total expense
variance. -/
theorem mkCashFlowDistribution_invariants (sq : ℚ → ℚ)
    (cs : List CategoryStats) (inc : IncomeStats) :
    (mkCashFlowDistribution sq cs inc).var_expense_total =
      (cs.map CategoryStats.variance).sum ∧
    (mkCashFlowDistribution sq cs inc).mean_net =
      (mkCashFlowDistribution sq cs inc).mean_income -
        (mkCashFlowDistribution sq cs inc).mean_expense_total ∧
    (mkCashFlowDistribution sq cs inc).var_net =
      (mkCashFlowDistribution sq cs inc).var_income +
        (mkCashFlowDistribution sq cs inc).var_expense_total :=
  ⟨rfl, rfl, rfl⟩

/-! ### C3 -/

/-- C3: when `var_net > 0`, every risk driver (income included as its own
bucket) carries `contribution_pct = 100·var_k/var_net`, and the
contributions sum to exactly 100, in particular to 100 within ±0.5. -/
theorem analyzeRisk_risk_attribution (P : NormalPrimitives)
    (cs : List CategoryStats) (inc : IncomeStats) (goals : List GoalSnapshot)
    (hV : 0 < (mkCashFlowDistribution P.sqrtQ cs inc).var_net) :
    (∀ d ∈ (analyzeRisk P cs inc goals).risk_drivers,
      d.contribution_pct =
        100 * d.variance / (mkCashFlowDistribution P.sqrtQ cs inc).var_net) ∧
    ((analyzeRisk P cs inc goals).risk_drivers.map
        RiskDriver.contribution_pct).sum = 100 ∧
    |((analyzeRisk P cs inc goals).risk_drivers.map
        RiskDriver.contribution_pct).sum - 100| ≤ 1 / 2 := by
  have hVne : (mkCashFlowDistribution P.sqrtQ cs inc).var_net ≠ 0 := ne_of_gt hV
  have hdrivers : (analyzeRisk P cs inc goals).risk_drivers =
      (cs.map (fun c => mkRiskDriver
          (mkCashFlowDistribution P.sqrtQ cs inc).var_net
          c.category c.mean c.variance c.std)
        ++ [mkRiskDriver (mkCashFlowDistribution P.sqrtQ cs inc).var_net
              "income" inc.mean inc.variance
              (P.sqrtQ inc.variance)]).insertionSort driverBefore := rfl
  have hmem : ∀ d ∈ (analyzeRisk P cs inc goals).risk_drivers,
      d.contribution_pct =
        100 * d.variance / (mkCashFlowDistribution P.sqrtQ cs inc).var_net := by
    intro d hd
    rw [hdrivers, List.mem_insertionSort] at hd
    rcases List.mem_append.mp hd with h1 | h2
    · rcases List.mem_map.mp h1 with ⟨c, _, rfl⟩
      rfl
    · rw [List.mem_singleton] at h2
      subst h2
      rfl
  have hsum : ((analyzeRisk P cs inc goals).risk_drivers.map
      RiskDriver.contribution_pct).sum = 100 := by
    rw [hdrivers]
    rw [((List.perm_insertionSort driverBefore _).map
      RiskDriver.contribution_pct).sum_eq]
    rw [List.map_append, List.sum_append, List.map_map]
    have hcomp : (RiskDriver.contribution_pct ∘ fun c =>
        mkRiskDriver (mkCashFlowDistribution P.sqrtQ cs inc).var_net
          c.category c.mean c.variance c.std) =
        (fun x => 100 * x / (mkCashFlowDistribution P.sqrtQ cs inc).var_net) ∘
          CategoryStats.variance := rfl
    rw [hcomp, ← List.map_map, sum_map_hundred_div]
    simp only [List.map_cons, List.map_nil, List.sum_cons, List.sum_nil,
      add_zero, mkRiskDriver]
    rw [div_add_div_same]
    have hnum : 100 * (cs.map CategoryStats.variance).sum +
        100 * inc.variance =
        100 * (mkCashFlowDistribution P.sqrtQ cs inc).var_net := by
      have : (mkCashFlowDistribution P.sqrtQ cs inc).var_net =
          inc.variance + (cs.map CategoryStats.variance).sum := rfl
      rw [this]
      ring
    rw [hnum, mul_div_assoc, div_self hVne, mul_one]
  exact ⟨hmem, hsum, by rw [hsum]; norm_num⟩

/-- Witness for C3: the spec scenario — category variances 100 and 300
plus income variance 100, so `var_net = 500`, and the contributions sum
to 100. -/
theorem analyzeRisk_risk_attribution_witness :
    (mkCashFlowDistribution stubPrimitives.sqrtQ w3Cats w3Inc).var_net = 500 ∧
    0 < (mkCashFlowDistribution stubPrimitives.sqrtQ w3Cats w3Inc).var_net ∧
    ((analyzeRisk stubPrimitives w3Cats w3Inc []).risk_drivers.map
        RiskDriver.contribution_pct).sum = 100 := by
  have hV : (mkCashFlowDistribution stubPrimitives.sqrtQ w3Cats w3Inc).var_net
      = 500 := by
    norm_num [mkCashFlowDistribution, totalExpenseVar, w3Cats, w3Inc]
  refine ⟨hV, by rw [hV]; norm_num, ?_⟩
  exact (analyzeRisk_risk_attribution stubPrimitives w3Cats w3Inc []
    (by rw [hV]; norm_num)).2.1

/-! ### C4 -/

/-- C4: the goal risks reported by `analyzeRisk` are exactly the per-goal
results over the net distribution; a time-bound goal with `m` months to
the target uses horizon `T = max 1 ⌈m⌉` and remaining amount
`G = max (target − current) 0` and reports failure probability
`Φ((G − T·mean_net)/(√T·std_net))`; a goal with no target date is
reported as not time-bound, never as a numeric risk. -/
theorem analyzeRisk_goal_risk (P : NormalPrimitives)
    (cs : List CategoryStats) (inc : IncomeStats)
    (goals : List GoalSnapshot) :
    (analyzeRisk P cs inc goals).goal_risks =
      goals.map (goalRiskFor P (mkCashFlowDistribution P.sqrtQ cs inc)) ∧
    (∀ g ∈ goals, ∀ m : ℚ, g.target_months = some m →
      goalMonths m = max 1 ⌈m⌉ ∧
      goalRiskFor P (mkCashFlowDistribution P.sqrtQ cs inc) g =
        .timeBound
          { goal_id := g.id
            failure_probability :=
              P.Phi ((max (g.target_amount - g.current_amount) 0 -
                  (goalMonths m : ℚ) *
                    (mkCashFlowDistribution P.sqrtQ cs inc).mean_net) /
                (P.sqrtQ (goalMonths m : ℚ) *
                  (mkCashFlowDistribution P.sqrtQ cs inc).std_net))
            remaining_amount := max (g.target_amount - g.current_amount) 0
            months_to_goal := goalMonths m
            expected_shortfall :=
              P.sqrtQ (goalMonths m : ℚ) *
                expectedShortfall P
                  (mkCashFlowDistribution P.sqrtQ cs inc).mean_net
                  (mkCashFlowDistribution P.sqrtQ cs inc).std_net }) ∧
    (∀ g ∈ goals, g.target_months = none →
      goalRiskFor P (mkCashFlowDistribution P.sqrtQ cs inc) g =
        .notTimeBound g.id) := by
  refine ⟨rfl, fun g _ m hm => ⟨rfl, ?_⟩, fun g _ hm => ?_⟩
  · simp only [goalRiskFor, hm]
  · simp only [goalRiskFor, hm]

/-- Witness for C4: the spec scenario — remaining 6000, `mean_net = 500`,
`std_net = 150`, `T = 12`, so the numerator is zero and the reported
failure probability is `Φ(0)` — one half under any CDF with
`Φ(0) = 1/2`, as with the stub primitives. -/
theorem analyzeRisk_goal_risk_witness :
    wGoal.target_months = some 12 ∧
    (mkCashFlowDistribution stubPrimitives.sqrtQ [] w4Inc).mean_net = 500 ∧
    (mkCashFlowDistribution stubPrimitives.sqrtQ [] w4Inc).std_net = 150 ∧
    goalMonths 12 = 12 ∧
    goalRiskFor stubPrimitives
        (mkCashFlowDistribution stubPrimitives.sqrtQ [] w4Inc) wGoal =
      .timeBound
        { goal_id := wGoal.id
          failure_probability :=
            stubPrimitives.Phi
              ((max (wGoal.target_amount - wGoal.current_amount) 0 -
                  (goalMonths 12 : ℚ) *
                    (mkCashFlowDistribution stubPrimitives.sqrtQ [] w4Inc).mean_net) /
                (stubPrimitives.sqrtQ (goalMonths 12 : ℚ) *
                  (mkCashFlowDistribution stubPrimitives.sqrtQ [] w4Inc).std_net))
          remaining_amount := max (wGoal.target_amount - wGoal.current_amount) 0
          months_to_goal := goalMonths 12
          expected_shortfall :=
            stubPrimitives.sqrtQ (goalMonths 12 : ℚ) *
              expectedShortfall stubPrimitives
                (mkCashFlowDistribution stubPrimitives.sqrtQ [] w4Inc).mean_net
                (mkCashFlowDistribution stubPrimitives.sqrtQ [] w4Inc).std_net } ∧
    (max (wGoal.target_amount - wGoal.current_amount) 0 -
        (goalMonths 12 : ℚ) *
          (mkCashFlowDistribution stubPrimitives.sqrtQ [] w4Inc).mean_net) = 0 ∧
    stubPrimitives.Phi 0 = 1 / 2 := by
  have hmean : (mkCashFlowDistribution stubPrimitives.sqrtQ [] w4Inc).mean_net
      = 500 := by
    norm_num [mkCashFlowDistribution, totalExpenseMean, w4Inc]
  have hT : goalMonths 12 = 12 := by
    simp [goalMonths]
  refine ⟨rfl, hmean, ?_, hT, ?_, ?_, ?_⟩
  · norm_num [mkCashFlowDistribution, totalExpenseVar, w4Inc, stubPrimitives,
      stubSqrt]
  · exact ((analyzeRisk_goal_risk stubPrimitives [] w4Inc [wGoal]).2.1 wGoal
      (by simp) 12 rfl).2
  · rw [hmean, hT]
    norm_num [wGoal]
  · norm_num [stubPrimitives]

/-! ### C5 -/

theorem applyShock_of_one {sm : List (String × ℚ)}
    (h : ∀ pr ∈ sm, pr.2 = 1) (name : String) (mean : ℚ) :
    applyShock sm name mean = mean := by
  induction sm with
  | nil => rfl
  | cons p rest ih =>
    obtain ⟨k, v⟩ := p
    have hv : v = 1 := h (k, v) (by simp)
    have hrest := ih (fun pr hpr => h pr (by simp [hpr]))
    by_cases hk : name == k
    · simp [applyShock, List.lookup, hk, hv]
    · simp only [applyShock, List.lookup, hk] at hrest ⊢
      exact hrest

theorem shockCategories_of_one {sm : List (String × ℚ)}
    (h : ∀ pr ∈ sm, pr.2 = 1) (cs : List CategoryStats) :
    shockCategories sm cs = cs := by
  unfold shockCategories
  have hc : ∀ c ∈ cs,
      ({ c with mean := applyShock sm c.category c.mean } : CategoryStats)
        = c := by
    intro c _
    rw [applyShock_of_one h]
  calc cs.map _ = cs.map id := List.map_congr_left hc
  _ = cs := List.map_id cs

theorem shockIncome_of_one {sm : List (String × ℚ)}
    (h : ∀ pr ∈ sm, pr.2 = 1) (inc : IncomeStats) :
    shockIncome sm inc = inc := by
  unfold shockIncome
  rw [applyShock_of_one h]

/-- C5: a stress test in which every supplied multiplier is 1.0 — in
particular one with an empty shock map — passes validation and returns a
shocked report identical to the base report, with every scalar field of
the delta equal to zero. -/
theorem stressTest_noop (P : NormalPrimitives) (cs : List CategoryStats)
    (inc : IncomeStats) (sm : List (String × ℚ))
    (h : ∀ pr ∈ sm, pr.2 = 1) :
    stressTest P cs inc sm =
      .ok { base := analyzeRisk P cs inc []
            shocked := analyzeRisk P cs inc []
            delta := { failure_probability := 0, expected_shortfall := 0,
                       mean_cashflow := 0, runway_days := 0 } } ∧
    ∀ r, stressTest P cs inc sm = .ok r →
      r.shocked = r.base ∧
      r.delta = { failure_probability := 0, expected_shortfall := 0,
                  mean_cashflow := 0, runway_days := 0 } := by
  have hall : sm.all (fun pr => decide (0 < pr.2)) = true := by
    rw [List.all_eq_true]
    intro pr hpr
    rw [decide_eq_true_eq, h pr hpr]
    norm_num
  have hok : stressTest P cs inc sm =
      .ok { base := analyzeRisk P cs inc []
            shocked := analyzeRisk P cs inc []
            delta := { failure_probability := 0, expected_shortfall := 0,
                       mean_cashflow := 0, runway_days := 0 } } := by
    unfold stressTest
    rw [if_pos hall, shockCategories_of_one h, shockIncome_of_one h]
    simp [mkRiskDelta, sub_self]
  refine ⟨hok, fun r hr => ?_⟩
  rw [hok] at hr
  injection hr with hr
  rw [← hr]
  exact ⟨rfl, rfl⟩

/-- Witness for C5: a one-entry shock map with multiplier 1.0 on concrete
statistics. -/
theorem stressTest_noop_witness :
    (∀ pr ∈ [("Housing", (1:ℚ))], pr.2 = 1) ∧
    stressTest stubPrimitives wCats wIncome [("Housing", 1)] =
      .ok { base := analyzeRisk stubPrimitives wCats wIncome []
            shocked := analyzeRisk stubPrimitives wCats wIncome []
            delta := { failure_probability := 0, expected_shortfall := 0,
                       mean_cashflow := 0, runway_days := 0 } } := by
  have h : ∀ pr ∈ [("Housing", (1:ℚ))], pr.2 = 1 := by
    intro pr hpr
    rw [List.mem_singleton] at hpr
    rw [hpr]
  exact ⟨h, (stressTest_noop stubPrimitives wCats wIncome _ h).1⟩

/-! ### C6 -/

/-- Counterexample for C6: with net mean −100 and net std 100 the runway
formula `mean_net/std_net·30` yields −30, so the reported `runway_days`
is negative — the claim's non-negativity conjunct contradicts its own
formula conjunct. -/
theorem runway_nonneg_counterexample :
    (mkCashFlowDistribution stubPrimitives.sqrtQ c6Cats c6Inc).mean_net = -100 ∧
    (mkCashFlowDistribution stubPrimitives.sqrtQ c6Cats c6Inc).std_net = 100 ∧
    (analyzeRisk stubPrimitives c6Cats c6Inc []).runway_days = some (-30) ∧
    ¬ (0 ≤ (-30 : ℚ)) := by
  have hmean : (mkCashFlowDistribution stubPrimitives.sqrtQ c6Cats c6Inc).mean_net
      = -100 := by
    norm_num [mkCashFlowDistribution, totalExpenseMean, c6Cats, c6Inc]
  have hstd : (mkCashFlowDistribution stubPrimitives.sqrtQ c6Cats c6Inc).std_net
      = 100 := by
    norm_num [mkCashFlowDistribution, totalExpenseVar, c6Cats, c6Inc,
      stubPrimitives, stubSqrt]
  refine ⟨hmean, hstd, ?_, by norm_num⟩
  have : (analyzeRisk stubPrimitives c6Cats c6Inc []).runway_days =
      runwayDays (mkCashFlowDistribution stubPrimitives.sqrtQ c6Cats c6Inc).mean_net
        (mkCashFlowDistribution stubPrimitives.sqrtQ c6Cats c6Inc).std_net := rfl
  rw [this, hmean, hstd, runwayDays]
  norm_num

/-- C6 (amended): `runway_days` is 0 whenever `mean_net ≥ 0`; it is
`(mean_net/std_net)·30` — a non-positive quantity — whenever
`std_net > 0` and `mean_net < 0`; and a non-finite ratio (negative mean
with zero std) is reported as no computable runway.  Non-negativity holds
only for the displayed value, after the UI clamps negatives to 0. -/
theorem analyzeRisk_runway (P : NormalPrimitives) (cs : List CategoryStats)
    (inc : IncomeStats) (goals : List GoalSnapshot) :
    (0 ≤ (mkCashFlowDistribution P.sqrtQ cs inc).mean_net →
      (analyzeRisk P cs inc goals).runway_days = some 0) ∧
    ((mkCashFlowDistribution P.sqrtQ cs inc).mean_net < 0 →
      0 < (mkCashFlowDistribution P.sqrtQ cs inc).std_net →
      (analyzeRisk P cs inc goals).runway_days =
        some ((mkCashFlowDistribution P.sqrtQ cs inc).mean_net /
          (mkCashFlowDistribution P.sqrtQ cs inc).std_net * 30) ∧
      (mkCashFlowDistribution P.sqrtQ cs inc).mean_net /
        (mkCashFlowDistribution P.sqrtQ cs inc).std_net * 30 ≤ 0) ∧
    ((mkCashFlowDistribution P.sqrtQ cs inc).mean_net < 0 →
      ¬ 0 < (mkCashFlowDistribution P.sqrtQ cs inc).std_net →
      (analyzeRisk P cs inc goals).runway_days = none) := by
  have hrw : (analyzeRisk P cs inc goals).runway_days =
      runwayDays (mkCashFlowDistribution P.sqrtQ cs inc).mean_net
        (mkCashFlowDistribution P.sqrtQ cs inc).std_net := rfl
  refine ⟨fun hm => ?_, fun hm hs => ⟨?_, ?_⟩, fun hm hs => ?_⟩
  · rw [hrw, runwayDays, if_pos hm]
  · rw [hrw, runwayDays, if_neg (not_le.mpr hm), if_pos hs]
  · have hdiv : (mkCashFlowDistribution P.sqrtQ cs inc).mean_net /
        (mkCashFlowDistribution P.sqrtQ cs inc).std_net < 0 :=
      div_neg_of_neg_of_pos hm hs
    nlinarith
  · rw [hrw, runwayDays, if_neg (not_le.mpr hm), if_neg hs]

/-- Witness for C6 (amended): the same concrete input as the
counterexample, in the negative-mean positive-std branch. -/
theorem analyzeRisk_runway_witness :
    (mkCashFlowDistribution stubPrimitives.sqrtQ c6Cats c6Inc).mean_net < 0 ∧
    0 < (mkCashFlowDistribution stubPrimitives.sqrtQ c6Cats c6Inc).std_net ∧
    (analyzeRisk stubPrimitives c6Cats c6Inc []).runway_days =
      some ((mkCashFlowDistribution stubPrimitives.sqrtQ c6Cats c6Inc).mean_net /
        (mkCashFlowDistribution stubPrimitives.sqrtQ c6Cats c6Inc).std_net * 30) := by
  have hmean : (mkCashFlowDistribution stubPrimitives.sqrtQ c6Cats c6Inc).mean_net < 0 := by
    norm_num [mkCashFlowDistribution, totalExpenseMean, c6Cats, c6Inc]
  have hstd : 0 < (mkCashFlowDistribution stubPrimitives.sqrtQ c6Cats c6Inc).std_net := by
    norm_num [mkCashFlowDistribution, totalExpenseVar, c6Cats, c6Inc,
      stubPrimitives, stubSqrt]
  exact ⟨hmean, hstd,
    ((analyzeRisk_runway stubPrimitives c6Cats c6Inc []).2.1 hmean hstd).1⟩

/-! ### C7 -/

theorem length_filter_map {α β : Type} (f : α → β) (q : β → Bool)
    (l : List α) :
    ((l.map f).filter q).length = (l.filter (fun i => q (f i))).length := by
  rw [← List.countP_eq_length_filter, ← List.countP_eq_length_filter,
    List.countP_map]
  rfl

/-- C7: for positive path and year counts, the reported success
probability is the fraction of paths whose terminal balance is at least
twice the total contributed principal — the initial investment plus the
sum of the monthly contributions over `years·12` months. -/
theorem simulate_success_probability (p : MonteCarloParams)
    (sample : ℕ → ℕ → ℚ) (hp : 0 < p.path_count) (hy : 0 < p.years) :
    (simulate p sample).success_probability =
      (((List.range p.path_count).filter (fun i =>
          decide (2 * (p.initial_investment +
            ((List.range (p.years * 12)).map
              (fun _ => p.monthly_contribution)).sum) ≤
            terminalBalance p (sample i)))).length : ℚ) /
        (p.path_count : ℚ) := by
  have hprincipal : p.initial_investment +
      ((List.range (p.years * 12)).map (fun _ => p.monthly_contribution)).sum
      = totalPrincipal p := by
    simp [totalPrincipal, List.map_const']
    ring
  have hfun : (fun i => decide (2 * (p.initial_investment +
        ((List.range (p.years * 12)).map
          (fun _ => p.monthly_contribution)).sum) ≤
        terminalBalance p (sample i)))
      = (fun i =>
          decide (2 * totalPrincipal p ≤ terminalBalance p (sample i))) := by
    funext i
    rw [hprincipal]
  rw [hfun]
  show ((((List.range p.path_count).map
        (fun i => terminalBalance p (sample i))).filter
      (fun b => decide (2 * totalPrincipal p ≤ b))).length : ℚ) /
        (p.path_count : ℚ) =
    (((List.range p.path_count).filter (fun i =>
        decide (2 * totalPrincipal p ≤ terminalBalance p (sample i)))).length : ℚ) /
      (p.path_count : ℚ)
  rw [length_filter_map (fun i => terminalBalance p (sample i))
    (fun b => decide (2 * totalPrincipal p ≤ b)) (List.range p.path_count)]

/-- Witness for C7: two flat paths over one year. -/
theorem simulate_success_probability_witness :
    0 < w7Params.path_count ∧ 0 < w7Params.years ∧
    (simulate w7Params w7Sample).success_probability =
      (((List.range w7Params.path_count).filter (fun i =>
          decide (2 * (w7Params.initial_investment +
            ((List.range (w7Params.years * 12)).map
              (fun _ => w7Params.monthly_contribution)).sum) ≤
            terminalBalance w7Params (w7Sample i)))).length : ℚ) /
        (w7Params.path_count : ℚ) :=
  ⟨by decide, by decide,
    simulate_success_probability w7Params w7Sample (by decide) (by decide)⟩

/-! ### C8 -/

theorem percentileLinear_of_all_eq {q c : ℚ} {xs : List ℚ}
    (h : ∀ x ∈ xs, x = c) (hne : xs ≠ []) (h1 : q ≤ 100) :
    percentileLinear q xs = c := by
  have hmem : ∀ x ∈ xs.insertionSort (· ≤ ·), x = c := by
    intro x hx
    exact h x (by simpa using hx)
  have hlpos : 0 < (xs.insertionSort (· ≤ ·)).length := by
    simpa using List.length_pos.mpr hne
  have hne0 : ¬ (xs.insertionSort (· ≤ ·)).length = 0 :=
    Nat.pos_iff_ne_zero.mp hlpos
  simp only [percentileLinear]
  rw [if_neg hne0]
  set ys := xs.insertionSort (· ≤ ·) with hys
  set pos : ℚ := q / 100 * ((ys.length : ℚ) - 1) with hposdef
  set k : ℕ := ⌊pos⌋.toNat with hk
  have hl1 : (1:ℚ) ≤ (ys.length : ℚ) := by exact_mod_cast hlpos
  have hposle : pos ≤ (ys.length : ℚ) - 1 := by
    rw [hposdef]
    have hq1 : q / 100 ≤ 1 := (div_le_one (by norm_num : (0:ℚ) < 100)).mpr h1
    calc q / 100 * ((ys.length : ℚ) - 1) ≤ 1 * ((ys.length : ℚ) - 1) :=
        mul_le_mul_of_nonneg_right hq1 (by linarith)
    _ = (ys.length : ℚ) - 1 := one_mul _
  have hkle : k < ys.length := by
    have hfloor : ⌊pos⌋ ≤ (ys.length : ℤ) - 1 := by
      have h2 := Int.floor_le_floor hposle
      have h3 : ⌊(ys.length : ℚ) - 1⌋ = (ys.length : ℤ) - 1 := by
        rw [Int.floor_sub_one, Int.floor_natCast]
      rw [h3] at h2
      exact h2
    omega
  have ha : ys.getD k 0 = c := by
    rw [List.getD_eq_getElem?_getD, List.getElem?_eq_getElem hkle]
    simp only [Option.getD_some]
    exact hmem _ (List.getElem_mem hkle)
  have hb : ys.getD (k + 1) (ys.getD k 0) = c := by
    rcases Nat.lt_or_ge (k + 1) ys.length with hlt | hge
    · rw [List.getD_eq_getElem?_getD, List.getElem?_eq_getElem hlt]
      simp only [Option.getD_some]
      exact hmem _ (List.getElem_mem hlt)
    · rw [List.getD_eq_getElem?_getD, List.getElem?_eq_none hge]
      simp only [Option.getD_none]
      exact ha
  rw [hb, ha]
  ring

/-- The §8 boundary scenario's parameters: initial 1000, no
contributions, zero years, with return, volatility and path count
free. -/
def zeroYearParams (er vol : ℚ) (n : ℕ) : MonteCarloParams :=
  { initial_investment := 1000, monthly_contribution := 0, years := 0,
    expected_return := er, volatility := vol, path_count := n }

/-- C8: with initial 1000, no contributions and zero years, every path's
terminal balance is 1000 regardless of return and volatility — zero
months elapse, so no drift is applied — and the reported mean and median
both equal 1000. -/
theorem simulate_zero_years (er vol : ℚ) (n : ℕ) (sample : ℕ → ℕ → ℚ)
    (hn : 0 < n) :
    (∀ i : ℕ,
      terminalBalance (zeroYearParams er vol n) (sample i) = 1000) ∧
    (simulate (zeroYearParams er vol n) sample).mean = 1000 ∧
    (simulate (zeroYearParams er vol n) sample).median = 1000 := by
  have hterm : ∀ i : ℕ,
      terminalBalance (zeroYearParams er vol n) (sample i) = 1000 :=
    fun _ => rfl
  have hmemT : ∀ x ∈ (List.range n).map
      (fun i => terminalBalance (zeroYearParams er vol n) (sample i)),
      x = 1000 := by
    intro x hx
    rcases List.mem_map.mp hx with ⟨i, _, rfl⟩
    exact hterm i
  have hneT : (List.range n).map
      (fun i => terminalBalance (zeroYearParams er vol n) (sample i)) ≠ [] :=
    List.length_pos.mp (by simpa using hn)
  refine ⟨hterm, ?_, ?_⟩
  · show listMean ((List.range n).map
        (fun i => terminalBalance (zeroYearParams er vol n) (sample i)))
      = 1000
    exact listMean_of_all_eq hmemT hneT
  · show percentileLinear 50 ((List.range n).map
        (fun i => terminalBalance (zeroYearParams er vol n) (sample i)))
      = 1000
    exact percentileLinear_of_all_eq hmemT hneT (by norm_num)

/-- Witness for C8: three paths with nonzero return and volatility. -/
theorem simulate_zero_years_witness :
    0 < 3 ∧
    (simulate (zeroYearParams 5 7 3) (fun _ _ => 1 / 10)).mean = 1000 ∧
    (simulate (zeroYearParams 5 7 3) (fun _ _ => 1 / 10)).median = 1000 :=
  ⟨by norm_num,
    (simulate_zero_years 5 7 3 (fun _ _ => 1 / 10) (by norm_num)).2.1,
    (simulate_zero_years 5 7 3 (fun _ _ => 1 / 10) (by norm_num)).2.2⟩

/-! ### C9 and C10 -/

/-- C9: the goal scenario returns a baseline row and a scenario row; the
scenario's time to goal is `⌈remaining/monthly⌉` months whenever the
monthly contribution is positive and unreachable — not a
division-by-zero fault — whenever it is nonpositive; when both rows are
reachable, the saved months equal baseline minus scenario clamped below
at 0. -/
theorem simulateGoalScenario_months (remaining surplus : ℚ)
    (reductions : List (String × ℚ)) (historicalSpend : String → ℚ) :
    ∃ baseRow scenRow : GoalScenarioRow,
      simulateGoalScenario remaining surplus reductions historicalSpend =
        [baseRow, scenRow] ∧
      scenRow.monthly_contribution =
        surplus + savingsFromReductions reductions historicalSpend ∧
      (0 < surplus + savingsFromReductions reductions historicalSpend →
        scenRow.months_to_goal = .reachable
          ⌈remaining /
            (surplus + savingsFromReductions reductions historicalSpend)⌉) ∧
      (surplus + savingsFromReductions reductions historicalSpend ≤ 0 →
        scenRow.months_to_goal = .unreachable) ∧
      (∀ b s : ℤ, baseRow.months_to_goal = .reachable b →
        scenRow.months_to_goal = .reachable s →
        scenRow.months_saved = max (b - s) 0 ∧ 0 ≤ scenRow.months_saved) := by
  refine ⟨_, _, rfl, rfl, fun hpos => ?_, fun hnp => ?_,
    fun b s hb hs => ?_⟩
  · show monthsToGoal remaining
        (surplus + savingsFromReductions reductions historicalSpend) = _
    rw [monthsToGoal, if_pos hpos]
  · show monthsToGoal remaining
        (surplus + savingsFromReductions reductions historicalSpend) = _
    rw [monthsToGoal, if_neg (not_lt.mpr hnp)]
  · have hb' : monthsToGoal remaining surplus = .reachable b := hb
    have hs' : monthsToGoal remaining
        (surplus + savingsFromReductions reductions historicalSpend) =
        .reachable s := hs
    constructor
    · show savedBetween (monthsToGoal remaining surplus)
        (monthsToGoal remaining
          (surplus + savingsFromReductions reductions historicalSpend)) = _
      rw [hb', hs']
      rfl
    · show (0:ℤ) ≤ savedBetween (monthsToGoal remaining surplus)
        (monthsToGoal remaining
          (surplus + savingsFromReductions reductions historicalSpend))
      rw [hb', hs']
      exact le_max_right _ _

/-- Witness for C9: remaining 6000, surplus 200, a 50% reduction of a
category with historical spend 400 — contribution 400 and a 15-month
scenario. -/
theorem simulateGoalScenario_months_witness :
    savingsFromReductions [("Dining", 50)] w9Spend = 200 ∧
    (0:ℚ) < 200 + savingsFromReductions [("Dining", 50)] w9Spend ∧
    ∃ baseRow scenRow : GoalScenarioRow,
      simulateGoalScenario 6000 200 [("Dining", 50)] w9Spend =
        [baseRow, scenRow] ∧
      scenRow.months_to_goal = .reachable 15 := by
  have hsav : savingsFromReductions [("Dining", 50)] w9Spend = 200 := by
    norm_num [savingsFromReductions, w9Spend]
  have hpos : (0:ℚ) < 200 + savingsFromReductions [("Dining", 50)] w9Spend := by
    rw [hsav]; norm_num
  obtain ⟨baseRow, scenRow, hrows, _, hreach, _, _⟩ :=
    simulateGoalScenario_months 6000 200 [("Dining", 50)] w9Spend
  refine ⟨hsav, hpos, baseRow, scenRow, hrows, ?_⟩
  rw [hreach hpos, hsav]
  have hq : (6000 : ℚ) / (200 + 200) = 15 := by norm_num
  rw [hq]
  simp

/-- C10: the frontend opportunity-cost client fills in the defaults
`time_horizon_years = 1` and `expected_return = 0.07` when only the
spending amount is supplied, so the omitted-argument call builds exactly
the request of the explicit call with 1 and 0.07. -/
theorem calculateOpportunityCost_defaults (s : ℚ) :
    calculateOpportunityCost s none none =
      calculateOpportunityCost s (some 1) (some (7 / 100)) ∧
    (calculateOpportunityCost s none none).time_horizon_years = 1 ∧
    (calculateOpportunityCost s none none).expected_return = 7 / 100 :=
  ⟨rfl, rfl, rfl⟩

end FinSage
